import Mathlib

/-! Domain health checker (`src/server/services/domainChecker.js`).

A shallow embedding of `lookupDomain`.  The four awaited lookups are inputs: each
either returns a value or rejects with an `Error` object carrying a message, as
Node's promisified `dns` functions and `whois-json` do.  JavaScript exceptions are
modelled in `Except JsError`, `try { .. } catch (error) { .. }` by `tryCatch`, and
the `checks` object that the source mutates step by step is passed explicitly.
The `Date` constructor and `toLocaleDateString` are built-ins of the runtime; they
are parameters of the model (`Runtime`).
-/

namespace DomainChecker

/-! ## Data model -/

/-- An `Error` object as thrown by a lookup; only its `message` is read. -/
structure JsError where
  message : String
deriving DecidableEq, Repr

/-- A JavaScript `Date`: a time value in milliseconds since the epoch, or the
`Invalid Date` whose time value is `NaN`. -/
inductive JsDate where
  | time (ms : Int)
  | invalid
deriving DecidableEq, Repr

/-- The relational `<` of two dates: both are converted to their time values and
a comparison with `NaN` is `false`. -/
def JsDate.lt : JsDate → JsDate → Bool
  | .time x, .time y => decide (x < y)
  | _, _ => false

/-- The `status` strings that the source writes into a check. -/
inductive Status where
  | pending
  | success
  | error
  | warning
deriving DecidableEq, Repr

/-- One entry of `checks`: `{ status, result }` or `{ status, error }`.  A field
that is absent or `null` is `none`. -/
structure Check (ρ : Type) where
  status : Status
  result : Option ρ
  error : Option String
deriving DecidableEq, Repr

/-- An element of the array returned by `dns.resolveMx`. -/
structure MxRecord where
  exchange : String
  priority : Nat
deriving DecidableEq, Repr

/-- The `result` of a successful WHOIS check (lines 51-54). -/
structure WhoisPayload where
  expirationDate : JsDate
  isExpired : Bool
deriving DecidableEq, Repr

/-- The `checks` object (lines 12-17). -/
structure Checks where
  ns : Check (List String)
  a : Check (List String)
  mx : Check (List MxRecord)
  whois : Check WhoisPayload
deriving DecidableEq, Repr

/-- The object returned by `whois(domain)`: only `expirationDate` is read, a
string when the field is there. -/
structure WhoisResult where
  expirationDate : Option String
deriving DecidableEq, Repr

/-- The object returned by `lookupDomain` (lines 107-111). -/
structure DomainReport where
  isExpired : Bool
  reason : String
  checks : Checks
deriving DecidableEq, Repr

/-- What one invocation observes from outside: the outcome of each awaited
lookup and the clock value that `new Date()` reads. -/
structure Lookups where
  resolveNs : Except JsError (List String)
  resolveA : Except JsError (List String)
  resolveMx : Except JsError (List MxRecord)
  whois : Except JsError WhoisResult
  now : Int

/-- The two `Date` built-ins that the source calls. -/
structure Runtime where
  parseDate : String → JsDate
  toLocaleDateString : JsDate → String

/-! ## JavaScript primitives -/

/-- The statement `try { body } catch (error) { handler }`. -/
def tryCatch {α : Type} (body : Except JsError α) (handler : JsError → Except JsError α) :
    Except JsError α :=
  match body with
  | .ok v => .ok v
  | .error e => handler e

/-- Truthiness of a string-valued property that may be absent: `undefined` and
the empty string are falsy. -/
def truthy : Option String → Bool
  | none => false
  | some s => s != ""

/-- The call `new Date(v)` on a string-valued property that may be absent:
`new Date(undefined)` is the `Invalid Date`. -/
def newDate (rt : Runtime) : Option String → JsDate
  | some s => rt.parseDate s
  | none => .invalid

/-- Interpolation `${v}` of a string-valued property that may be absent. -/
def interpolate : Option String → String
  | some s => s
  | none => "undefined"

/-- The `TypeError` of reading a property of `undefined`. -/
def typeError (property : String) : JsError :=
  ⟨"Cannot read properties of undefined (reading '" ++ property ++ "')"⟩

/-- Array `join('\n')` on an array of strings. -/
def join (summary : List String) : String :=
  String.intercalate "\n" summary

/-- The call `split(sep)` with a one-character separator, on the characters of a
string: the pieces between consecutive separators, empty pieces included. -/
def splitOn (sep : Char) : List Char → List (List Char)
  | [] => [[]]
  | c :: cs =>
    if c = sep then [] :: splitOn sep cs
    else
      match splitOn sep cs with
      | [] => [[c]]
      | piece :: pieces => (c :: piece) :: pieces

/-- The lines of a string: `s.split('\n')`. -/
def lines (s : String) : List String :=
  (splitOn '\n' s.data).map String.mk

/-! ## `lookupDomain` -/

/-- Lines 12-17: every check starts as `{ status: 'pending', result: null }`. -/
def initialChecks : Checks :=
  { ns := ⟨.pending, none, none⟩, a := ⟨.pending, none, none⟩,
    mx := ⟨.pending, none, none⟩, whois := ⟨.pending, none, none⟩ }

/-- Lines 20-25: the NS check. -/
def checkNs (io : Lookups) (checks : Checks) : Except JsError Checks :=
  tryCatch
    (do let nsRecords ← io.resolveNs
        pure { checks with ns := ⟨.success, some nsRecords, none⟩ })
    (fun error => pure { checks with ns := ⟨.error, none, some error.message⟩ })

/-- Lines 28-33: the A check. -/
def checkA (io : Lookups) (checks : Checks) : Except JsError Checks :=
  tryCatch
    (do let aRecords ← io.resolveA
        pure { checks with a := ⟨.success, some aRecords, none⟩ })
    (fun error => pure { checks with a := ⟨.error, none, some error.message⟩ })

/-- Lines 36-41: the MX check. -/
def checkMx (io : Lookups) (checks : Checks) : Except JsError Checks :=
  tryCatch
    (do let mxRecords ← io.resolveMx
        pure { checks with mx := ⟨.success, some mxRecords, none⟩ })
    (fun error => pure { checks with mx := ⟨.error, none, some error.message⟩ })

/-- Lines 44-64: the WHOIS check. -/
def checkWhois (rt : Runtime) (io : Lookups) (checks : Checks) : Except JsError Checks :=
  tryCatch
    (do let whoisResult ← io.whois
        if truthy whoisResult.expirationDate then
          let expirationDate := newDate rt whoisResult.expirationDate
          let now := JsDate.time io.now
          pure { checks with
            whois := ⟨.success, some ⟨expirationDate, JsDate.lt expirationDate now⟩, none⟩ }
        else
          pure { checks with
            whois := ⟨.warning, none, some "Pas de date d'expiration trouvée"⟩ })
    (fun error => pure { checks with whois := ⟨.error, none, some error.message⟩ })

/-- Lines 67-105: the verdict and the summary lines, read off `checks`.  The pair
is the final value of the locals `isExpired` and `summary`. -/
def analyse (rt : Runtime) (checks : Checks) : Except JsError (Bool × List String) := do
  let summary : List String := []
  let isExpired := false
  -- NS
  let (summary, isExpired) :=
    if checks.ns.status = .error then (summary ++ ["✗ Pas de serveurs DNS"], true)
    else (summary ++ ["✓ Serveurs DNS présents"], isExpired)
  -- A
  let (summary, isExpired) :=
    if checks.a.status = .error then (summary ++ ["✗ Pas d'enregistrement A"], true)
    else (summary ++ ["✓ Enregistrements A présents"], isExpired)
  -- MX
  let summary :=
    if checks.mx.status = .error then summary ++ ["✗ Pas d'enregistrement MX"]
    else summary ++ ["✓ Enregistrements MX présents"]
  -- WHOIS
  if checks.whois.status = .success then
    match checks.whois.result with
    | none => throw (typeError "isExpired")
    | some result =>
      if result.isExpired then
        pure (true, summary ++ ["✗ WHOIS: Domaine expiré depuis "
          ++ rt.toLocaleDateString result.expirationDate])
      else
        pure (isExpired, summary ++ ["✓ WHOIS: Expire le "
          ++ rt.toLocaleDateString result.expirationDate])
  else if checks.whois.status = .warning then
    pure (isExpired, summary ++ ["⚠ WHOIS: Pas de date d'expiration trouvée"])
  else
    pure (isExpired, summary ++ ["✗ WHOIS: " ++ interpolate checks.whois.error])

/-- The function `lookupDomain` (lines 10-116).  The outer handler logs and
rethrows. -/
def lookupDomain (rt : Runtime) (io : Lookups) : Except JsError DomainReport :=
  tryCatch
    (do let checks := initialChecks
        let checks ← checkNs io checks
        let checks ← checkA io checks
        let checks ← checkMx io checks
        let checks ← checkWhois rt io checks
        let (isExpired, summary) ← analyse rt checks
        pure { isExpired := isExpired, reason := join summary, checks := checks })
    (fun error => throw error)

/-! ## Closed forms of the steps -/

/-- The entry that a DNS check writes for an outcome of its lookup. -/
def settle {ρ : Type} : Except JsError ρ → Check ρ
  | .ok records => ⟨.success, some records, none⟩
  | .error e => ⟨.error, none, some e.message⟩

/-- The entry that the WHOIS check writes for an outcome of its lookup. -/
def settleWhois (rt : Runtime) (now : Int) : Except JsError WhoisResult → Check WhoisPayload
  | .ok w =>
    if truthy w.expirationDate then
      ⟨.success, some ⟨newDate rt w.expirationDate,
        JsDate.lt (newDate rt w.expirationDate) (.time now)⟩, none⟩
    else ⟨.warning, none, some "Pas de date d'expiration trouvée"⟩
  | .error e => ⟨.error, none, some e.message⟩

/-- The `checks` object once the four checks have run. -/
def settledChecks (rt : Runtime) (io : Lookups) : Checks :=
  { ns := settle io.resolveNs, a := settle io.resolveA, mx := settle io.resolveMx,
    whois := settleWhois rt io.now io.whois }

/-- One of the two fixed lines of a DNS check. -/
def dnsLine {ρ : Type} (absent present : String) (c : Check ρ) : String :=
  if c.status = .error then absent else present

/-- The WHOIS line of the summary. -/
def whoisLine (rt : Runtime) (w : Check WhoisPayload) : String :=
  match w.status, w.result with
  | .success, some p =>
    if p.isExpired then "✗ WHOIS: Domaine expiré depuis " ++ rt.toLocaleDateString p.expirationDate
    else "✓ WHOIS: Expire le " ++ rt.toLocaleDateString p.expirationDate
  | .warning, _ => "⚠ WHOIS: Pas de date d'expiration trouvée"
  | _, _ => "✗ WHOIS: " ++ interpolate w.error

/-- The four lines of the summary, in the order in which they are pushed. -/
def summaryLines (rt : Runtime) (c : Checks) : List String :=
  [dnsLine "✗ Pas de serveurs DNS" "✓ Serveurs DNS présents" c.ns,
   dnsLine "✗ Pas d'enregistrement A" "✓ Enregistrements A présents" c.a,
   dnsLine "✗ Pas d'enregistrement MX" "✓ Enregistrements MX présents" c.mx,
   whoisLine rt c.whois]

/-- The final value of the local `isExpired`. -/
def verdict (c : Checks) : Bool :=
  decide (c.ns.status = .error) || decide (c.a.status = .error) ||
    (decide (c.whois.status = .success) &&
      match c.whois.result with
      | some p => p.isExpired
      | none => false)

/-- The string `reason` is the join of four summary lines: an NS line, an A line,
an MX line and, last, the WHOIS line `w`. -/
def HasWhoisLine (reason w : String) : Prop :=
  ∃ l₁ l₂ l₃, reason = join [l₁, l₂, l₃, w] ∧
    (l₁ = "✗ Pas de serveurs DNS" ∨ l₁ = "✓ Serveurs DNS présents") ∧
    (l₂ = "✗ Pas d'enregistrement A" ∨ l₂ = "✓ Enregistrements A présents") ∧
    (l₃ = "✗ Pas d'enregistrement MX" ∨ l₃ = "✓ Enregistrements MX présents")

/-- The first character of a summary line: its status glyph. -/
def glyph (line : String) : Option Char :=
  line.data.head?

/-! ## Sample inputs -/

/-- A runtime that knows two ISO dates, `2000-01-01` and `2099-01-01`. -/
def sampleRuntime : Runtime where
  parseDate s :=
    if s = "2000-01-01" then .time 946684800000
    else if s = "2099-01-01" then .time 4070908800000
    else .invalid
  toLocaleDateString d :=
    if d = .time 946684800000 then "1/1/2000"
    else if d = .time 4070908800000 then "1/1/2099"
    else "Invalid Date"

/-- A clock value in November 2025. -/
def sampleNow : Int := 1762300800000

/-- All DNS lookups succeed and the WHOIS query fails with a two-line message. -/
def whoisTwoLineFailure : Lookups :=
  { resolveNs := .ok ["ns1.example.com", "ns2.example.com"],
    resolveA := .ok ["93.184.216.34"],
    resolveMx := .ok [],
    whois := .error ⟨"connect ECONNREFUSED\nwhois.example.net"⟩,
    now := sampleNow }

/-- The scenario `example.com`: everything succeeds, WHOIS expires in 2099. -/
def healthyDomain : Lookups :=
  { resolveNs := .ok ["ns1.example.com", "ns2.example.com"],
    resolveA := .ok ["93.184.216.34"],
    resolveMx := .ok [],
    whois := .ok ⟨some "2099-01-01"⟩,
    now := sampleNow }

/-- The scenario `expired-test.com`: everything succeeds, WHOIS expired in 2000. -/
def expiredDomain : Lookups :=
  { healthyDomain with whois := .ok ⟨some "2000-01-01"⟩ }

/-- The scenario `broken-dns.com`: the NS lookup throws `ENOTFOUND`. -/
def brokenDns : Lookups :=
  { healthyDomain with resolveNs := .error ⟨"ENOTFOUND"⟩ }

/-- The scenario `no-expiry-field.com`: WHOIS answers without an expiration date. -/
def noExpiryField : Lookups :=
  { healthyDomain with whois := .ok ⟨none⟩ }

/-- Only the MX lookup fails. -/
def mxFailure : Lookups :=
  { healthyDomain with resolveMx := .error ⟨"ENODATA"⟩ }

/-- The WHOIS query fails with a one-line message. -/
def whoisFailure : Lookups :=
  { healthyDomain with whois := .error ⟨"lookup: timeout"⟩ }

/-- The healthy domain looked up one millisecond later. -/
def healthyDomainLater : Lookups :=
  { healthyDomain with now := sampleNow + 1 }

/-- WHOIS answers with an expiration date that the runtime cannot parse. -/
def unparsableExpiry : Lookups :=
  { healthyDomain with whois := .ok ⟨some "before Aug-2031"⟩ }

/-- WHOIS answers with an `expirationDate` field that is the empty string. -/
def emptyExpiryField : Lookups :=
  { healthyDomain with whois := .ok ⟨some ""⟩ }

/-- NS and A succeed, the MX lookup and the WHOIS query fail. -/
def mxAndWhoisFailure : Lookups :=
  { healthyDomain with
    resolveMx := .error ⟨"ENODATA"⟩, whois := .error ⟨"lookup: timeout"⟩ }

/-- The sample runtime in a time zone west of Greenwich: the same parser, and a
date text that shows the local day, which is the day before for a UTC midnight. -/
def sampleRuntimeWest : Runtime where
  parseDate := sampleRuntime.parseDate
  toLocaleDateString d :=
    if d = .time 946684800000 then "12/31/1999"
    else if d = .time 4070908800000 then "12/31/2098"
    else "Invalid Date"

/-- Every one of the four lookups fails. -/
def allLookupsFail : Lookups :=
  { resolveNs := .error ⟨"queryNs ENOTFOUND nowhere.invalid"⟩,
    resolveA := .error ⟨"queryA ENOTFOUND nowhere.invalid"⟩,
    resolveMx := .error ⟨"queryMx ENOTFOUND nowhere.invalid"⟩,
    whois := .error ⟨"getaddrinfo ENOTFOUND whois.nic.invalid"⟩,
    now := sampleNow }

/-! ## Lemmas -/

theorem checkNs_eq (io : Lookups) (c : Checks) :
    checkNs io c = .ok { c with ns := settle io.resolveNs } := by
  unfold checkNs
  cases io.resolveNs <;> rfl

theorem checkA_eq (io : Lookups) (c : Checks) :
    checkA io c = .ok { c with a := settle io.resolveA } := by
  unfold checkA
  cases io.resolveA <;> rfl

theorem checkMx_eq (io : Lookups) (c : Checks) :
    checkMx io c = .ok { c with mx := settle io.resolveMx } := by
  unfold checkMx
  cases io.resolveMx <;> rfl

theorem checkWhois_eq (rt : Runtime) (io : Lookups) (c : Checks) :
    checkWhois rt io c = .ok { c with whois := settleWhois rt io.now io.whois } := by
  unfold checkWhois settleWhois
  cases io.whois with
  | error e => rfl
  | ok w =>
    by_cases h : truthy w.expirationDate = true <;>
      simp [h, tryCatch, bind, Except.bind, pure, Except.pure]

theorem settleWhois_result (rt : Runtime) (now : Int) (o : Except JsError WhoisResult)
    (h : (settleWhois rt now o).status = .success) :
    ∃ p, (settleWhois rt now o).result = some p := by
  unfold settleWhois at h ⊢
  cases o with
  | error e => simp at h
  | ok w =>
    by_cases ht : truthy w.expirationDate = true
    · simp [ht]
    · simp [ht] at h

theorem analyse_eq (rt : Runtime) (c : Checks)
    (h : c.whois.status = .success → ∃ p, c.whois.result = some p) :
    analyse rt c = .ok (verdict c, summaryLines rt c) := by
  obtain ⟨ns, a, mx, ⟨ws, wr, we⟩⟩ := c
  by_cases hn : ns.status = .error <;> by_cases ha : a.status = .error <;>
    by_cases hm : mx.status = .error <;> cases ws <;> cases wr <;>
    simp [analyse, verdict, summaryLines, dnsLine, whoisLine, pure, Except.pure, hn, ha, hm]
      at h ⊢ <;>
    split <;> simp_all

theorem lookupDomain_eq (rt : Runtime) (io : Lookups) :
    lookupDomain rt io =
      .ok { isExpired := verdict (settledChecks rt io),
            reason := join (summaryLines rt (settledChecks rt io)),
            checks := settledChecks rt io } := by
  have h := analyse_eq rt (settledChecks rt io) (settleWhois_result rt io.now io.whois)
  unfold settledChecks at h
  simp only [lookupDomain, checkNs_eq, checkA_eq, checkMx_eq, checkWhois_eq, initialChecks,
    bind, Except.bind, h]
  rfl

theorem splitOn_of_not_mem (sep : Char) (l : List Char) (h : sep ∉ l) :
    splitOn sep l = [l] := by
  induction l with
  | nil => rfl
  | cons c cs ih =>
    have hc : c ≠ sep := fun e => h (e ▸ List.mem_cons_self c cs)
    have hcs : sep ∉ cs := fun m => h (List.mem_cons_of_mem c m)
    simp [splitOn, hc, ih hcs]

theorem splitOn_append_sep (sep : Char) (l r : List Char) (h : sep ∉ l) :
    splitOn sep (l ++ sep :: r) = l :: splitOn sep r := by
  induction l with
  | nil => simp [splitOn]
  | cons c cs ih =>
    have hc : c ≠ sep := fun e => h (e ▸ List.mem_cons_self c cs)
    have hcs : sep ∉ cs := fun m => h (List.mem_cons_of_mem c m)
    simp [splitOn, hc, ih hcs]

theorem lines_join_four (l₁ l₂ l₃ l₄ : String) (h₁ : '\n' ∉ l₁.data) (h₂ : '\n' ∉ l₂.data)
    (h₃ : '\n' ∉ l₃.data) (h₄ : '\n' ∉ l₄.data) :
    lines (join [l₁, l₂, l₃, l₄]) = [l₁, l₂, l₃, l₄] := by
  have hd : (join [l₁, l₂, l₃, l₄]).data =
      l₁.data ++ '\n' :: (l₂.data ++ '\n' :: (l₃.data ++ '\n' :: l₄.data)) := by
    simp [join, String.intercalate, String.intercalate.go, String.data_append]
  simp [lines, hd, splitOn_append_sep, splitOn_of_not_mem, h₁, h₂, h₃, h₄]

theorem dnsLine_no_newline {ρ : Type} (absent present : String) (c : Check ρ)
    (ha : '\n' ∉ absent.data) (hp : '\n' ∉ present.data) :
    '\n' ∉ (dnsLine absent present c).data := by
  unfold dnsLine
  split <;> assumption

theorem failed_or_returned {ρ : Type} (o : Except JsError ρ) :
    (settle o).status = .error ↔ ∃ e, o = .error e := by
  cases o <;> simp [settle]

theorem whois_expired_iff (rt : Runtime) (now : Int) (o : Except JsError WhoisResult) :
    ((settleWhois rt now o).status = .success ∧
      ∃ p, (settleWhois rt now o).result = some p ∧ p.isExpired = true) ↔
    ∃ s t, o = .ok ⟨some s⟩ ∧ s ≠ "" ∧ rt.parseDate s = .time t ∧ t < now := by
  cases o with
  | error e => simp [settleWhois]
  | ok w =>
    obtain ⟨d⟩ := w
    cases d with
    | none => simp [settleWhois, truthy]
    | some s =>
      by_cases hs : s = ""
      · simp [settleWhois, truthy, hs]
      · cases hp : rt.parseDate s <;> simp [settleWhois, truthy, hs, newDate, hp, JsDate.lt]

theorem verdict_settled (rt : Runtime) (io : Lookups) :
    verdict (settledChecks rt io) = true ↔
      ((∃ e, io.resolveNs = .error e) ∨ (∃ e, io.resolveA = .error e) ∨
        ∃ s t, io.whois = .ok ⟨some s⟩ ∧ s ≠ "" ∧ rt.parseDate s = .time t ∧ t < io.now) := by
  rw [← whois_expired_iff, ← failed_or_returned, ← failed_or_returned]
  simp only [verdict, settledChecks, Bool.or_eq_true, Bool.and_eq_true, decide_eq_true_eq, or_assoc]
  cases (settleWhois rt io.now io.whois).result <;> simp

theorem whoisLine_shape (rt : Runtime) (w : Check WhoisPayload) :
    ∃ rest, whoisLine rt w = "✗ WHOIS: " ++ rest ∨ whoisLine rt w = "✓ WHOIS: " ++ rest ∨
      whoisLine rt w = "⚠ WHOIS: " ++ rest := by
  obtain ⟨st, res, err⟩ := w
  cases st <;> cases res <;> simp only [whoisLine]
  case success.some p =>
    by_cases hp : p.isExpired = true
    · exact ⟨_, Or.inl (by simp [hp]; rfl)⟩
    · exact ⟨_, Or.inr (Or.inl (by simp [hp]; rfl))⟩
  case warning.none => exact ⟨"Pas de date d'expiration trouvée", Or.inr (Or.inr (by decide))⟩
  case warning.some => exact ⟨"Pas de date d'expiration trouvée", Or.inr (Or.inr (by decide))⟩
  all_goals exact ⟨_, Or.inl rfl⟩

theorem whoisLine_no_newline (rt : Runtime) (io : Lookups)
    (hfmt : ∀ d, '\n' ∉ (rt.toLocaleDateString d).data)
    (hmsg : ∀ e, io.whois = .error e → '\n' ∉ e.message.data) :
    '\n' ∉ (whoisLine rt (settleWhois rt io.now io.whois)).data := by
  cases hw : io.whois with
  | error e =>
    have := hmsg e hw
    simp [settleWhois, whoisLine, interpolate, String.data_append, this]
  | ok w =>
    by_cases ht : truthy w.expirationDate = true
    · simp only [settleWhois, ht, whoisLine, if_true]
      split
      · simp [String.data_append, hfmt]
      · simp [String.data_append, hfmt]
    · simp [settleWhois, ht, whoisLine]

theorem dnsLine_cases {ρ : Type} (absent present : String) (c : Check ρ) :
    dnsLine absent present c = absent ∨ dnsLine absent present c = present := by
  unfold dnsLine
  split
  · exact Or.inl rfl
  · exact Or.inr rfl

theorem hasWhoisLine_summary (rt : Runtime) (c : Checks) :
    HasWhoisLine (join (summaryLines rt c)) (whoisLine rt c.whois) :=
  ⟨_, _, _, rfl, dnsLine_cases _ _ _, dnsLine_cases _ _ _, dnsLine_cases _ _ _⟩

theorem verdict_of_whois_not_success (c : Checks) (h : c.whois.status ≠ .success) :
    verdict c = true ↔ (c.ns.status = .error ∨ c.a.status = .error) := by
  simp [verdict, h]

theorem join_four (l₁ l₂ l₃ l₄ : String) :
    join [l₁, l₂, l₃, l₄] = l₁ ++ "\n" ++ l₂ ++ "\n" ++ l₃ ++ "\n" ++ l₄ := rfl

theorem glyph_append (pre rest : String) (c : Char) (h : glyph pre = some c) :
    glyph (pre ++ rest) = some c := by
  unfold glyph at h ⊢
  rw [String.data_append]
  cases hd : pre.data with
  | nil => simp [hd] at h
  | cons x xs => simpa [hd] using h

theorem glyph_dnsLine {ρ : Type} (absent present : String) (c : Check ρ) :
    glyph (dnsLine absent present c) =
      if c.status = .error then glyph absent else glyph present := by
  unfold dnsLine
  split <;> rfl

theorem settled_status {ρ : Type} (o : Except JsError ρ) :
    (settle o).status = .error ∨ (settle o).status = .success := by
  cases o
  · exact Or.inl rfl
  · exact Or.inr rfl

theorem report_from_checks (rt : Runtime) (io : Lookups) (r : DomainReport)
    (h : lookupDomain rt io = .ok r) :
    r.isExpired = verdict r.checks ∧ r.reason = join (summaryLines rt r.checks) ∧
      analyse rt r.checks = .ok (verdict r.checks, summaryLines rt r.checks) := by
  have hr := (lookupDomain_eq rt io).symm.trans h
  injection hr with hr
  subst hr
  exact ⟨rfl, rfl, analyse_eq rt _ (settleWhois_result rt io.now io.whois)⟩

theorem glyph_whoisLine (rt : Runtime) (w : Check WhoisPayload) :
    glyph (whoisLine rt w) =
      match w.status, w.result with
      | .success, some p => if p.isExpired then some '✗' else some '✓'
      | .warning, _ => some '⚠'
      | _, _ => some '✗' := by
  obtain ⟨st, res, err⟩ := w
  cases st <;> cases res <;> simp only [whoisLine]
  case success.some p =>
    by_cases hp : p.isExpired = true
    · simp only [hp, if_true]
      exact glyph_append _ _ _ (by decide)
    · simp only [hp, if_false]
      exact glyph_append _ _ _ (by decide)
  case warning.none => decide
  case warning.some => decide
  all_goals exact glyph_append _ _ _ (by decide)

theorem verdict_backed (rt : Runtime) (c : Checks) (h : verdict c = true) :
    glyph (dnsLine "✗ Pas de serveurs DNS" "✓ Serveurs DNS présents" c.ns) = some '✗' ∨
    glyph (dnsLine "✗ Pas d'enregistrement A" "✓ Enregistrements A présents" c.a) = some '✗' ∨
    glyph (whoisLine rt c.whois) = some '✗' := by
  simp only [verdict, Bool.or_eq_true, Bool.and_eq_true, decide_eq_true_eq] at h
  rcases h with (hn | ha) | ⟨hs, hp⟩
  · exact Or.inl (by rw [glyph_dnsLine, if_pos hn]; decide)
  · exact Or.inr (Or.inl (by rw [glyph_dnsLine, if_pos ha]; decide))
  · refine Or.inr (Or.inr ?_)
    rw [glyph_whoisLine, hs]
    cases hres : c.whois.result with
    | none => simp [hres] at hp
    | some p =>
      rw [hres] at hp
      simp only at hp
      simp [hp]

theorem summaryLines_congr (rt rt' : Runtime) (c : Checks)
    (hfmt : ∀ d, rt.toLocaleDateString d = rt'.toLocaleDateString d) :
    summaryLines rt c = summaryLines rt' c := by
  have hw : whoisLine rt c.whois = whoisLine rt' c.whois := by
    unfold whoisLine
    split <;> simp [hfmt]
  simp [summaryLines, hw]

/-! ## The claims -/

/-- C1: for every outcome of the four lookups and every clock value, a report is
returned, and its `isExpired` is `true` exactly when the NS lookup failed, or the A
lookup failed, or WHOIS returned an expiration date (a non-empty `expirationDate`)
whose parsed time is earlier than `now`; so a past WHOIS expiration date alone
gives `true`. -/
theorem isExpired_iff (rt : Runtime) (io : Lookups) :
    ∃ r, lookupDomain rt io = .ok r ∧
      (r.isExpired = true ↔
        ((∃ e, io.resolveNs = .error e) ∨ (∃ e, io.resolveA = .error e) ∨
          ∃ s t, io.whois = .ok ⟨some s⟩ ∧ s ≠ "" ∧ rt.parseDate s = .time t ∧ t < io.now)) :=
  ⟨_, lookupDomain_eq rt io, verdict_settled rt io⟩


/-- C2, as stated, fails: when the WHOIS query fails with a message that holds a
newline, the message is interpolated into the WHOIS line as it is and `reason`
splits into five lines. -/
theorem reason_five_lines :
    ∃ r, lookupDomain sampleRuntime whoisTwoLineFailure = .ok r ∧
      lines r.reason =
        ["✓ Serveurs DNS présents", "✓ Enregistrements A présents",
         "✓ Enregistrements MX présents", "✗ WHOIS: connect ECONNREFUSED",
         "whois.example.net"] ∧
      (lines r.reason).length ≠ 4 :=
  ⟨_, lookupDomain_eq sampleRuntime whoisTwoLineFailure, by decide, by decide⟩

/-- C2, amended: when the message of a failing WHOIS query holds no newline (and
the date text of the runtime holds none), `reason` split on newline is exactly
four lines: one of the two NS lines, one of the two A lines, one of the two MX
lines and a WHOIS line, in this order. -/
theorem reason_four_lines (rt : Runtime) (io : Lookups)
    (hfmt : ∀ d, '\n' ∉ (rt.toLocaleDateString d).data)
    (hmsg : ∀ e, io.whois = .error e → '\n' ∉ e.message.data) :
    ∃ r l₁ l₂ l₃ l₄, lookupDomain rt io = .ok r ∧ lines r.reason = [l₁, l₂, l₃, l₄] ∧
      (l₁ = "✗ Pas de serveurs DNS" ∨ l₁ = "✓ Serveurs DNS présents") ∧
      (l₂ = "✗ Pas d'enregistrement A" ∨ l₂ = "✓ Enregistrements A présents") ∧
      (l₃ = "✗ Pas d'enregistrement MX" ∨ l₃ = "✓ Enregistrements MX présents") ∧
      ∃ rest, l₄ = "✗ WHOIS: " ++ rest ∨ l₄ = "✓ WHOIS: " ++ rest ∨
        l₄ = "⚠ WHOIS: " ++ rest := by
  refine ⟨_, dnsLine "✗ Pas de serveurs DNS" "✓ Serveurs DNS présents" (settle io.resolveNs),
    dnsLine "✗ Pas d'enregistrement A" "✓ Enregistrements A présents" (settle io.resolveA),
    dnsLine "✗ Pas d'enregistrement MX" "✓ Enregistrements MX présents" (settle io.resolveMx),
    whoisLine rt (settleWhois rt io.now io.whois),
    lookupDomain_eq rt io, ?_, ?_, ?_, ?_, whoisLine_shape rt _⟩
  · exact lines_join_four _ _ _ _
      (dnsLine_no_newline _ _ _ (by decide) (by decide))
      (dnsLine_no_newline _ _ _ (by decide) (by decide))
      (dnsLine_no_newline _ _ _ (by decide) (by decide))
      (whoisLine_no_newline rt io hfmt hmsg)
  · unfold dnsLine; split <;> simp
  · unfold dnsLine; split <;> simp
  · unfold dnsLine; split <;> simp

theorem sampleRuntime_no_newline (d : JsDate) :
    '\n' ∉ (sampleRuntime.toLocaleDateString d).data := by
  unfold sampleRuntime
  dsimp only
  split
  · decide
  · split <;> decide

/-- C2, amended, at the WHOIS failure `lookup: timeout`. -/
theorem reason_four_lines_witness :
    ∃ r l₁ l₂ l₃ l₄, lookupDomain sampleRuntime whoisFailure = .ok r ∧
      lines r.reason = [l₁, l₂, l₃, l₄] ∧
      (l₁ = "✗ Pas de serveurs DNS" ∨ l₁ = "✓ Serveurs DNS présents") ∧
      (l₂ = "✗ Pas d'enregistrement A" ∨ l₂ = "✓ Enregistrements A présents") ∧
      (l₃ = "✗ Pas d'enregistrement MX" ∨ l₃ = "✓ Enregistrements MX présents") ∧
      ∃ rest, l₄ = "✗ WHOIS: " ++ rest ∨ l₄ = "✓ WHOIS: " ++ rest ∨
        l₄ = "⚠ WHOIS: " ++ rest :=
  reason_four_lines sampleRuntime whoisFailure sampleRuntime_no_newline
    (fun e h => by
      have he : e = ⟨"lookup: timeout"⟩ := by
        have h' : (Except.error ⟨"lookup: timeout"⟩ : Except JsError WhoisResult) = .error e := h
        injection h' with h''
        exact h''.symm
      subst he
      decide)

/-- C3: whatever each of the four lookups returns or throws, `lookupDomain`
returns a report and does not throw, and the failure of a lookup is converted into
the result of its own check: a lookup that throws an error gives the `error` entry
carrying the message of that error, and a lookup that returns gives an entry that
is not an `error` entry. -/
theorem lookupDomain_returns (rt : Runtime) (io : Lookups) :
    ∃ r, lookupDomain rt io = .ok r ∧
      (∀ e, io.resolveNs = .error e → r.checks.ns = ⟨.error, none, some e.message⟩) ∧
      (∀ e, io.resolveA = .error e → r.checks.a = ⟨.error, none, some e.message⟩) ∧
      (∀ e, io.resolveMx = .error e → r.checks.mx = ⟨.error, none, some e.message⟩) ∧
      (∀ e, io.whois = .error e → r.checks.whois = ⟨.error, none, some e.message⟩) ∧
      (∀ x, io.resolveNs = .ok x → r.checks.ns = ⟨.success, some x, none⟩) ∧
      (∀ x, io.resolveA = .ok x → r.checks.a = ⟨.success, some x, none⟩) ∧
      (∀ x, io.resolveMx = .ok x → r.checks.mx = ⟨.success, some x, none⟩) ∧
      (∀ w, io.whois = .ok w → r.checks.whois.status ≠ .error) := by
  refine ⟨_, lookupDomain_eq rt io, ?_, ?_, ?_, ?_, ?_, ?_, ?_, ?_⟩
  · intro e h; simp [settledChecks, settle, h]
  · intro e h; simp [settledChecks, settle, h]
  · intro e h; simp [settledChecks, settle, h]
  · intro e h; simp [settledChecks, settleWhois, h]
  · intro x h; simp [settledChecks, settle, h]
  · intro x h; simp [settledChecks, settle, h]
  · intro x h; simp [settledChecks, settle, h]
  · intro w h
    by_cases ht : truthy w.expirationDate = true <;>
      simp [settledChecks, settleWhois, h, ht]

/-- C3 at the run in which all four lookups throw: a report is returned and each
check is the `error` entry with the message of its own lookup. -/
theorem lookupDomain_returns_witness :
    ∃ r, lookupDomain sampleRuntime allLookupsFail = .ok r ∧
      r.checks.ns = ⟨.error, none, some "queryNs ENOTFOUND nowhere.invalid"⟩ ∧
      r.checks.a = ⟨.error, none, some "queryA ENOTFOUND nowhere.invalid"⟩ ∧
      r.checks.mx = ⟨.error, none, some "queryMx ENOTFOUND nowhere.invalid"⟩ ∧
      r.checks.whois = ⟨.error, none, some "getaddrinfo ENOTFOUND whois.nic.invalid"⟩ := by
  obtain ⟨r, h, hns, ha, hmx, hw, _⟩ := lookupDomain_returns sampleRuntime allLookupsFail
  exact ⟨r, h, hns _ rfl, ha _ rfl, hmx _ rfl, hw _ rfl⟩

/-- C4: in the report returned, each of `checks.ns`, `checks.a`, `checks.mx` and
`checks.whois` has status `success`, `error` or `warning`, and none is left
`pending`. -/
theorem checks_settled (rt : Runtime) (io : Lookups) :
    ∃ r, lookupDomain rt io = .ok r ∧
      (r.checks.ns.status = .success ∨ r.checks.ns.status = .error ∨
        r.checks.ns.status = .warning) ∧
      (r.checks.a.status = .success ∨ r.checks.a.status = .error ∨
        r.checks.a.status = .warning) ∧
      (r.checks.mx.status = .success ∨ r.checks.mx.status = .error ∨
        r.checks.mx.status = .warning) ∧
      (r.checks.whois.status = .success ∨ r.checks.whois.status = .error ∨
        r.checks.whois.status = .warning) ∧
      r.checks.ns.status ≠ .pending ∧ r.checks.a.status ≠ .pending ∧
      r.checks.mx.status ≠ .pending ∧ r.checks.whois.status ≠ .pending := by
  refine ⟨_, lookupDomain_eq rt io, ?_⟩
  obtain ⟨ns, a, mx, w, now⟩ := io
  cases ns <;> cases a <;> cases mx <;> cases w <;>
    simp [settledChecks, settle, settleWhois] <;>
    split <;> simp

/-- C5: each check depends on its own lookup only.  For two runs, equal NS
outcomes give equal `checks.ns`, equal A outcomes equal `checks.a`, equal MX
outcomes equal `checks.mx`, and equal WHOIS outcomes with equal `now` give equal
`checks.whois`, whatever the other lookups do; and in each run every check is
reported (none is `pending`). -/
theorem check_depends_on_own_lookup (rt : Runtime) (io io' : Lookups) :
    ∃ r r', lookupDomain rt io = .ok r ∧ lookupDomain rt io' = .ok r' ∧
      (io.resolveNs = io'.resolveNs → r.checks.ns = r'.checks.ns) ∧
      (io.resolveA = io'.resolveA → r.checks.a = r'.checks.a) ∧
      (io.resolveMx = io'.resolveMx → r.checks.mx = r'.checks.mx) ∧
      (io.whois = io'.whois → io.now = io'.now → r.checks.whois = r'.checks.whois) ∧
      r.checks.ns.status ≠ .pending ∧ r.checks.a.status ≠ .pending ∧
      r.checks.mx.status ≠ .pending ∧ r.checks.whois.status ≠ .pending := by
  refine ⟨_, _, lookupDomain_eq rt io, lookupDomain_eq rt io', ?_, ?_, ?_, ?_, ?_⟩
  · intro h; simp only [settledChecks, h]
  · intro h; simp only [settledChecks, h]
  · intro h; simp only [settledChecks, h]
  · intro h hn; simp only [settledChecks, h, hn]
  · obtain ⟨ns, a, mx, w, now⟩ := io
    cases ns <;> cases a <;> cases mx <;> cases w <;>
      simp [settledChecks, settle, settleWhois] <;>
      split <;> simp

/-- C5 at two runs that differ in the NS outcome only: the A, MX and WHOIS checks
agree. -/
theorem check_depends_on_own_lookup_witness :
    ∃ r r', lookupDomain sampleRuntime healthyDomain = .ok r ∧
      lookupDomain sampleRuntime brokenDns = .ok r' ∧
      r.checks.a = r'.checks.a ∧ r.checks.mx = r'.checks.mx ∧
      r.checks.whois = r'.checks.whois := by
  obtain ⟨r, r', h, h', _, ha, hmx, hw, _⟩ :=
    check_depends_on_own_lookup sampleRuntime healthyDomain brokenDns
  exact ⟨r, r', h, h', ha rfl, hmx rfl, hw rfl rfl⟩

/-- C6: replacing the outcome of the MX lookup by any other outcome leaves
`isExpired` unchanged; hence when NS and A succeed and WHOIS returns an expiration
date that is not earlier than `now`, `isExpired` is `false` whatever MX does. -/
theorem mx_never_influences_verdict (rt : Runtime) (io : Lookups)
    (mx : Except JsError (List MxRecord)) :
    ∃ r r', lookupDomain rt io = .ok r ∧
      lookupDomain rt { io with resolveMx := mx } = .ok r' ∧
      r'.isExpired = r.isExpired ∧
      (∀ nsRecords aRecords s, io.resolveNs = .ok nsRecords → io.resolveA = .ok aRecords →
        io.whois = .ok ⟨some s⟩ → s ≠ "" → (∀ t, rt.parseDate s = .time t → io.now ≤ t) →
        r'.isExpired = false) := by
  refine ⟨_, _, lookupDomain_eq rt io, lookupDomain_eq rt _, rfl, ?_⟩
  intro nsRecords aRecords s hns ha hw _ hdate
  have hv := verdict_settled rt { io with resolveMx := mx }
  cases hb : verdict (settledChecks rt { io with resolveMx := mx }) with
  | false => rfl
  | true =>
    rw [hb] at hv
    rcases hv.mp rfl with ⟨e, he⟩ | ⟨e, he⟩ | ⟨s', t, hs', _, hp, hlt⟩
    · exact absurd (hns.symm.trans he) (by simp)
    · exact absurd (ha.symm.trans he) (by simp)
    · have hss : s = s' := by
        have := hw.symm.trans hs'
        simpa using this
      subst hss
      exact absurd (hdate t hp) (not_le.mpr hlt)

/-- C6 at the healthy domain whose MX lookup is made to fail. -/
theorem mx_never_influences_verdict_witness :
    ∃ r r', lookupDomain sampleRuntime healthyDomain = .ok r ∧
      lookupDomain sampleRuntime mxFailure = .ok r' ∧
      r'.isExpired = r.isExpired ∧ r'.isExpired = false := by
  obtain ⟨r, r', h, h', he, hf⟩ :=
    mx_never_influences_verdict sampleRuntime healthyDomain (.error ⟨"ENODATA"⟩)
  refine ⟨r, r', h, h', he, hf _ _ "2099-01-01" rfl rfl rfl (by decide) ?_⟩
  intro t ht
  have : t = 4070908800000 := by
    have h2 : sampleRuntime.parseDate "2099-01-01" = .time 4070908800000 := by decide
    rw [h2] at ht
    injection ht with ht'
    exact ht'.symm
  subst this
  decide

/-- C7: when WHOIS returns a response with an expiration date `s` (a non-empty
`expirationDate`), `checks.whois` is `success` with the payload made of the parsed
date and of `isExpired`, which is `true` exactly when the parsed time is strictly
earlier than `now` (so a date equal to `now` is not expired), and the WHOIS line
of `reason` ends with the locale text of that date. -/
theorem whois_success_payload (rt : Runtime) (io : Lookups) (s : String)
    (hw : io.whois = .ok ⟨some s⟩) (hs : s ≠ "") :
    ∃ r b, lookupDomain rt io = .ok r ∧
      r.checks.whois = ⟨.success, some ⟨rt.parseDate s, b⟩, none⟩ ∧
      (b = true ↔ ∃ t, rt.parseDate s = .time t ∧ t < io.now) ∧
      (rt.parseDate s = .time io.now → b = false) ∧
      HasWhoisLine r.reason
        (if b = true then
          "✗ WHOIS: Domaine expiré depuis " ++ rt.toLocaleDateString (rt.parseDate s)
        else "✓ WHOIS: Expire le " ++ rt.toLocaleDateString (rt.parseDate s)) := by
  have hsettle : settleWhois rt io.now io.whois =
      ⟨.success, some ⟨rt.parseDate s, JsDate.lt (rt.parseDate s) (.time io.now)⟩, none⟩ := by
    simp [hw, settleWhois, truthy, hs, newDate]
  have hline := hasWhoisLine_summary rt (settledChecks rt io)
  refine ⟨_, JsDate.lt (rt.parseDate s) (.time io.now), lookupDomain_eq rt io, hsettle,
    ?_, ?_, ?_⟩
  · cases hp : rt.parseDate s <;> simp [JsDate.lt]
  · intro hp
    simp [hp, JsDate.lt]
  · have hwl : whoisLine rt (settledChecks rt io).whois =
        (if JsDate.lt (rt.parseDate s) (.time io.now) = true then
          "✗ WHOIS: Domaine expiré depuis " ++ rt.toLocaleDateString (rt.parseDate s)
        else "✓ WHOIS: Expire le " ++ rt.toLocaleDateString (rt.parseDate s)) := by
      show whoisLine rt (settleWhois rt io.now io.whois) = _
      rw [hsettle]
      rfl
    rw [hwl] at hline
    exact hline

/-- C7 at the scenario `expired-test.com`: the payload is the date of 2000 with
`isExpired = true` and the WHOIS line names that date. -/
theorem whois_success_payload_witness :
    ∃ r b, lookupDomain sampleRuntime expiredDomain = .ok r ∧
      r.checks.whois = ⟨.success, some ⟨sampleRuntime.parseDate "2000-01-01", b⟩, none⟩ ∧
      (b = true ↔ ∃ t, sampleRuntime.parseDate "2000-01-01" = .time t ∧
        t < expiredDomain.now) ∧
      (sampleRuntime.parseDate "2000-01-01" = .time expiredDomain.now → b = false) ∧
      HasWhoisLine r.reason
        (if b = true then
          "✗ WHOIS: Domaine expiré depuis " ++
            sampleRuntime.toLocaleDateString (sampleRuntime.parseDate "2000-01-01")
        else "✓ WHOIS: Expire le " ++
            sampleRuntime.toLocaleDateString (sampleRuntime.parseDate "2000-01-01")) :=
  whois_success_payload sampleRuntime expiredDomain "2000-01-01" rfl (by decide)

/-- C8: when the WHOIS query fails with message `m`, `checks.whois` is the error
entry carrying `m`, the WHOIS line of `reason` is the failure glyph followed by
`m`, and `isExpired` is `true` exactly when the NS or the A lookup failed; with NS
and A succeeding it is `false`. -/
theorem whois_failure_reported (rt : Runtime) (io : Lookups) (m : String)
    (hw : io.whois = .error ⟨m⟩) :
    ∃ r, lookupDomain rt io = .ok r ∧
      r.checks.whois = ⟨.error, none, some m⟩ ∧
      HasWhoisLine r.reason ("✗ WHOIS: " ++ m) ∧
      (r.isExpired = true ↔ ((∃ e, io.resolveNs = .error e) ∨ ∃ e, io.resolveA = .error e)) ∧
      (∀ nsRecords aRecords, io.resolveNs = .ok nsRecords → io.resolveA = .ok aRecords →
        r.isExpired = false) := by
  have hsettle : settleWhois rt io.now io.whois = ⟨.error, none, some m⟩ := by
    simp [hw, settleWhois]
  have hline := hasWhoisLine_summary rt (settledChecks rt io)
  have hwl : whoisLine rt (settledChecks rt io).whois = "✗ WHOIS: " ++ m := by
    show whoisLine rt (settleWhois rt io.now io.whois) = _
    rw [hsettle]
    rfl
  have hv : verdict (settledChecks rt io) = true ↔
      ((∃ e, io.resolveNs = .error e) ∨ ∃ e, io.resolveA = .error e) := by
    rw [verdict_of_whois_not_success _ (by
      show (settleWhois rt io.now io.whois).status ≠ .success
      rw [hsettle]; simp)]
    exact or_congr (failed_or_returned _) (failed_or_returned _)
  rw [hwl] at hline
  refine ⟨_, lookupDomain_eq rt io, hsettle, hline, hv, ?_⟩
  intro nsRecords aRecords hns ha
  cases hb : verdict (settledChecks rt io) with
  | false => rfl
  | true =>
    rcases hv.mp hb with ⟨e, he⟩ | ⟨e, he⟩
    · exact absurd (hns.symm.trans he) (by simp)
    · exact absurd (ha.symm.trans he) (by simp)

/-- C8 at the WHOIS failure `lookup: timeout` with all DNS lookups succeeding. -/
theorem whois_failure_reported_witness :
    ∃ r, lookupDomain sampleRuntime whoisFailure = .ok r ∧
      r.checks.whois = ⟨.error, none, some "lookup: timeout"⟩ ∧
      HasWhoisLine r.reason "✗ WHOIS: lookup: timeout" ∧
      r.isExpired = false := by
  obtain ⟨r, h, hc, hl, _, hf⟩ :=
    whois_failure_reported sampleRuntime whoisFailure "lookup: timeout" rfl
  exact ⟨r, h, hc, hl, hf _ _ rfl rfl⟩

/-- C9: when WHOIS answers without an expiration date field, `checks.whois` is the
warning entry (status neither `success` nor `error`), the WHOIS line of `reason`
is the warning line, and `isExpired` is `true` exactly when the NS or the A lookup
failed. -/
theorem whois_without_expiration (rt : Runtime) (io : Lookups)
    (hw : io.whois = .ok ⟨none⟩) :
    ∃ r, lookupDomain rt io = .ok r ∧
      r.checks.whois = ⟨.warning, none, some "Pas de date d'expiration trouvée"⟩ ∧
      r.checks.whois.status ≠ .success ∧ r.checks.whois.status ≠ .error ∧
      HasWhoisLine r.reason "⚠ WHOIS: Pas de date d'expiration trouvée" ∧
      (r.isExpired = true ↔
        ((∃ e, io.resolveNs = .error e) ∨ ∃ e, io.resolveA = .error e)) := by
  have hsettle : settleWhois rt io.now io.whois =
      ⟨.warning, none, some "Pas de date d'expiration trouvée"⟩ := by
    simp [hw, settleWhois, truthy]
  have hline := hasWhoisLine_summary rt (settledChecks rt io)
  have hwl : whoisLine rt (settledChecks rt io).whois =
      "⚠ WHOIS: Pas de date d'expiration trouvée" := by
    show whoisLine rt (settleWhois rt io.now io.whois) = _
    rw [hsettle]
    rfl
  have hst : (settledChecks rt io).whois.status = .warning := by
    show (settleWhois rt io.now io.whois).status = _
    rw [hsettle]
  have hv : verdict (settledChecks rt io) = true ↔
      ((∃ e, io.resolveNs = .error e) ∨ ∃ e, io.resolveA = .error e) := by
    rw [verdict_of_whois_not_success _ (by rw [hst]; simp)]
    exact or_congr (failed_or_returned _) (failed_or_returned _)
  rw [hwl] at hline
  refine ⟨_, lookupDomain_eq rt io, hsettle, ?_, ?_, hline, hv⟩
  · show (settledChecks rt io).whois.status ≠ _
    rw [hst]; simp
  · show (settledChecks rt io).whois.status ≠ _
    rw [hst]; simp

/-- C9 at the scenario `no-expiry-field.com`. -/
theorem whois_without_expiration_witness :
    ∃ r, lookupDomain sampleRuntime noExpiryField = .ok r ∧
      r.checks.whois = ⟨.warning, none, some "Pas de date d'expiration trouvée"⟩ ∧
      r.checks.whois.status ≠ .success ∧ r.checks.whois.status ≠ .error ∧
      HasWhoisLine r.reason "⚠ WHOIS: Pas de date d'expiration trouvée" ∧
      (r.isExpired = true ↔
        ((∃ e, noExpiryField.resolveNs = .error e) ∨
          ∃ e, noExpiryField.resolveA = .error e)) :=
  whois_without_expiration sampleRuntime noExpiryField rfl

/-- C10: for each of the NS, A and MX lookups, a returned sequence `x` gives the
success entry carrying exactly `x`, and a failure with message `m` gives the error
entry carrying exactly `m`; a failure of NS or of A also makes `isExpired` true. -/
theorem dns_check_carries_outcome (rt : Runtime) (io : Lookups) :
    ∃ r, lookupDomain rt io = .ok r ∧
      (∀ x, io.resolveNs = .ok x → r.checks.ns = ⟨.success, some x, none⟩) ∧
      (∀ m, io.resolveNs = .error ⟨m⟩ →
        r.checks.ns = ⟨.error, none, some m⟩ ∧ r.isExpired = true) ∧
      (∀ x, io.resolveA = .ok x → r.checks.a = ⟨.success, some x, none⟩) ∧
      (∀ m, io.resolveA = .error ⟨m⟩ →
        r.checks.a = ⟨.error, none, some m⟩ ∧ r.isExpired = true) ∧
      (∀ x, io.resolveMx = .ok x → r.checks.mx = ⟨.success, some x, none⟩) ∧
      (∀ m, io.resolveMx = .error ⟨m⟩ → r.checks.mx = ⟨.error, none, some m⟩) := by
  refine ⟨_, lookupDomain_eq rt io, ?_, ?_, ?_, ?_, ?_, ?_⟩
  · intro x h; simp [settledChecks, settle, h]
  · intro m h
    exact ⟨by simp [settledChecks, settle, h],
      (verdict_settled rt io).mpr (Or.inl ⟨_, h⟩)⟩
  · intro x h; simp [settledChecks, settle, h]
  · intro m h
    exact ⟨by simp [settledChecks, settle, h],
      (verdict_settled rt io).mpr (Or.inr (Or.inl ⟨_, h⟩))⟩
  · intro x h; simp [settledChecks, settle, h]
  · intro m h; simp [settledChecks, settle, h]

/-- C10 at the scenario `broken-dns.com`: NS throws `ENOTFOUND`, the NS entry is the
error entry with that message, `isExpired` is `true`, and the A and MX entries carry
the returned sequences. -/
theorem dns_check_carries_outcome_witness :
    ∃ r, lookupDomain sampleRuntime brokenDns = .ok r ∧
      r.checks.ns = ⟨.error, none, some "ENOTFOUND"⟩ ∧ r.isExpired = true ∧
      r.checks.a = ⟨.success, some ["93.184.216.34"], none⟩ ∧
      r.checks.mx = ⟨.success, some [], none⟩ := by
  obtain ⟨r, h, _, hns, ha, _, hmx, _⟩ := dns_check_carries_outcome sampleRuntime brokenDns
  exact ⟨r, h, (hns "ENOTFOUND" rfl).1, (hns "ENOTFOUND" rfl).2, ha _ rfl, hmx _ rfl⟩

/-- C11: when the NS, A and MX lookups each return a sequence (an empty one
included) and WHOIS returns an expiration date whose parsed time is later than
`now`, `isExpired` is `false` and `reason` is the join of the four pass lines, each
beginning with the pass glyph. -/
theorem all_present_all_pass (rt : Runtime) (io : Lookups) (nsRecords aRecords : List String)
    (mxRecords : List MxRecord) (s : String) (t : Int)
    (hns : io.resolveNs = .ok nsRecords) (ha : io.resolveA = .ok aRecords)
    (hmx : io.resolveMx = .ok mxRecords) (hw : io.whois = .ok ⟨some s⟩) (hs : s ≠ "")
    (hp : rt.parseDate s = .time t) (hlater : io.now < t) :
    ∃ r, lookupDomain rt io = .ok r ∧ r.isExpired = false ∧
      r.reason = join ["✓ Serveurs DNS présents", "✓ Enregistrements A présents",
        "✓ Enregistrements MX présents",
        "✓ WHOIS: Expire le " ++ rt.toLocaleDateString (.time t)] ∧
      ∀ l ∈ ["✓ Serveurs DNS présents", "✓ Enregistrements A présents",
        "✓ Enregistrements MX présents",
        "✓ WHOIS: Expire le " ++ rt.toLocaleDateString (.time t)], glyph l = some '✓' := by
  have hsettle : settleWhois rt io.now io.whois = ⟨.success, some ⟨.time t, false⟩, none⟩ := by
    simp [hw, settleWhois, truthy, hs, newDate, hp, JsDate.lt, not_lt.mpr (le_of_lt hlater)]
  refine ⟨_, lookupDomain_eq rt io, ?_, ?_, ?_⟩
  · simp [verdict, settledChecks, hns, ha, settle, hsettle]
  · simp [summaryLines, settledChecks, hns, ha, hmx, settle, hsettle, dnsLine, whoisLine]
  · intro l hl
    simp only [List.mem_cons, List.mem_singleton, List.not_mem_nil, or_false] at hl
    rcases hl with rfl | rfl | rfl | rfl
    · decide
    · decide
    · decide
    · exact glyph_append _ _ _ (by decide)

/-- C11 at the scenario `example.com`, whose MX lookup returns the empty sequence. -/
theorem all_present_all_pass_witness :
    ∃ r, lookupDomain sampleRuntime healthyDomain = .ok r ∧ r.isExpired = false ∧
      r.reason = join ["✓ Serveurs DNS présents", "✓ Enregistrements A présents",
        "✓ Enregistrements MX présents", "✓ WHOIS: Expire le 1/1/2099"] := by
  obtain ⟨r, h, he, hr, _⟩ :=
    all_present_all_pass sampleRuntime healthyDomain _ _ [] "2099-01-01" 4070908800000
      rfl rfl rfl rfl (by decide) (by decide) (by decide)
  exact ⟨r, h, he, hr⟩

/-- C12, as stated, fails: `reason` holds the locale text of the WHOIS date, which
the runtime computes from its locale and time zone.  Two runs of the scenario
`expired-test.com`, in UTC and west of Greenwich, return equal `checks` and equal
`isExpired` and different `reason`. -/
theorem reason_depends_on_date_format :
    ∃ r r', lookupDomain sampleRuntime expiredDomain = .ok r ∧
      lookupDomain sampleRuntimeWest expiredDomain = .ok r' ∧
      r.checks = r'.checks ∧ r.isExpired = r'.isExpired ∧ r.reason ≠ r'.reason ∧
      lines r.reason = ["✓ Serveurs DNS présents", "✓ Enregistrements A présents",
        "✓ Enregistrements MX présents", "✗ WHOIS: Domaine expiré depuis 1/1/2000"] ∧
      lines r'.reason = ["✓ Serveurs DNS présents", "✓ Enregistrements A présents",
        "✓ Enregistrements MX présents", "✗ WHOIS: Domaine expiré depuis 12/31/1999"] :=
  ⟨_, _, lookupDomain_eq sampleRuntime expiredDomain,
    lookupDomain_eq sampleRuntimeWest expiredDomain, by decide, by decide, by decide,
    by decide, by decide⟩

/-- C12, amended: the verdict is read off `checks` alone, and the summary off
`checks` and the date format of the runtime, with nothing else.  Two runs that
return equal `checks` return equal `isExpired`, whatever the lookups, the clock and
the runtimes were; they return equal `reason` when their runtimes give the same
locale text for every date; and in each run `isExpired` and `reason` are the result
of the analysis of the returned `checks`. -/
theorem verdict_and_reason_from_checks (rt rt' : Runtime) (io io' : Lookups)
    (r r' : DomainReport) (h : lookupDomain rt io = .ok r) (h' : lookupDomain rt' io' = .ok r')
    (hc : r.checks = r'.checks) :
    r.isExpired = r'.isExpired ∧
      ((∀ d, rt.toLocaleDateString d = rt'.toLocaleDateString d) → r.reason = r'.reason) ∧
      ∃ summary, analyse rt r.checks = .ok (r.isExpired, summary) ∧
        r.reason = join summary := by
  obtain ⟨he, hr, ha⟩ := report_from_checks rt io r h
  obtain ⟨he', hr', _⟩ := report_from_checks rt' io' r' h'
  refine ⟨?_, ?_, summaryLines rt r.checks, ?_, hr⟩
  · rw [he, he', hc]
  · intro hfmt
    rw [hr, hr', hc, summaryLines_congr rt rt' _ hfmt]
  · rw [he]; exact ha

/-- C12, amended, at two runs of the healthy domain under one runtime whose clock
readings differ: the `checks` are equal, and so are `isExpired` and `reason`. -/
theorem verdict_and_reason_from_checks_witness :
    ∃ r r', lookupDomain sampleRuntime healthyDomain = .ok r ∧
      lookupDomain sampleRuntime healthyDomainLater = .ok r' ∧
      r.checks = r'.checks ∧ r.isExpired = r'.isExpired ∧ r.reason = r'.reason := by
  have hc : settledChecks sampleRuntime healthyDomain =
      settledChecks sampleRuntime healthyDomainLater := by decide
  have h := verdict_and_reason_from_checks sampleRuntime sampleRuntime healthyDomain
    healthyDomainLater _ _ (lookupDomain_eq _ _) (lookupDomain_eq _ _) hc
  exact ⟨_, _, lookupDomain_eq _ _, lookupDomain_eq _ _, hc, h.1, h.2.1 (fun _ => rfl)⟩

/-- C13: the summary built by `lookupDomain` has exactly four entries and `reason`
is these entries with one newline between consecutive entries.  The NS, A and MX
entries begin with the failure glyph when their check has status `error` and with
the pass glyph otherwise; the WHOIS entry begins with the warning glyph for a
warning, with the failure glyph for an error, and for a success with the failure
glyph when the payload is expired and with the pass glyph when it is not. -/
theorem summary_glyphs (rt : Runtime) (io : Lookups) :
    ∃ r l₁ l₂ l₃ l₄, lookupDomain rt io = .ok r ∧
      analyse rt r.checks = .ok (r.isExpired, [l₁, l₂, l₃, l₄]) ∧
      r.reason = l₁ ++ "\n" ++ l₂ ++ "\n" ++ l₃ ++ "\n" ++ l₄ ∧
      glyph l₁ = (if r.checks.ns.status = .error then some '✗' else some '✓') ∧
      glyph l₂ = (if r.checks.a.status = .error then some '✗' else some '✓') ∧
      glyph l₃ = (if r.checks.mx.status = .error then some '✗' else some '✓') ∧
      (r.checks.whois.status = .warning → glyph l₄ = some '⚠') ∧
      (r.checks.whois.status = .error → glyph l₄ = some '✗') ∧
      (∀ p, r.checks.whois.status = .success → r.checks.whois.result = some p →
        glyph l₄ = (if p.isExpired = true then some '✗' else some '✓')) := by
  obtain ⟨he, hr, ha⟩ := report_from_checks rt io _ (lookupDomain_eq rt io)
  refine ⟨_, _, _, _, _, lookupDomain_eq rt io, ha, join_four _ _ _ _,
    glyph_dnsLine _ _ _, glyph_dnsLine _ _ _, glyph_dnsLine _ _ _, ?_, ?_, ?_⟩
  · intro hs
    rw [glyph_whoisLine]
    simp only [] at hs
    rw [hs]
  · intro hs
    rw [glyph_whoisLine]
    simp only [] at hs
    rw [hs]
  · intro p hs hp
    rw [glyph_whoisLine]
    simp only [] at hs hp
    rw [hs, hp]
/-- C13 at the scenario `expired-test.com`: three pass glyphs, then the failure
glyph of the expired WHOIS date. -/
theorem summary_glyphs_witness :
    ∃ r l₁ l₂ l₃ l₄, lookupDomain sampleRuntime expiredDomain = .ok r ∧
      r.reason = l₁ ++ "\n" ++ l₂ ++ "\n" ++ l₃ ++ "\n" ++ l₄ ∧
      glyph l₁ = some '✓' ∧ glyph l₂ = some '✓' ∧ glyph l₃ = some '✓' ∧
      glyph l₄ = some '✗' := by
  obtain ⟨r, l₁, l₂, l₃, l₄, h, _, hr, g₁, g₂, g₃, _, _, gw⟩ :=
    summary_glyphs sampleRuntime expiredDomain
  have hr' := (lookupDomain_eq sampleRuntime expiredDomain).symm.trans h
  injection hr' with hr'
  subst hr'
  exact ⟨_, l₁, l₂, l₃, l₄, h, hr, g₁.trans (by decide), g₂.trans (by decide),
    g₃.trans (by decide),
    (gw ⟨.time 946684800000, true⟩ (by decide) (by decide)).trans (by decide)⟩

/-- C14: when WHOIS returns a non-empty expiration date string whose parsed date is
invalid, `checks.whois` is still `success`, its payload has `isExpired = false`, the
WHOIS line of `reason` is the pass line `✓ WHOIS: Expire le` followed by the locale
text of the invalid date, and, whatever `now` is, `isExpired` is `true` exactly when
the NS or the A lookup failed. -/
theorem unparsable_date_not_expired (rt : Runtime) (io : Lookups) (s : String)
    (hw : io.whois = .ok ⟨some s⟩) (hs : s ≠ "") (hp : rt.parseDate s = .invalid) :
    ∃ r, lookupDomain rt io = .ok r ∧
      r.checks.whois = ⟨.success, some ⟨.invalid, false⟩, none⟩ ∧
      HasWhoisLine r.reason ("✓ WHOIS: Expire le " ++ rt.toLocaleDateString .invalid) ∧
      glyph ("✓ WHOIS: Expire le " ++ rt.toLocaleDateString .invalid) = some '✓' ∧
      (r.isExpired = true ↔
        ((∃ e, io.resolveNs = .error e) ∨ ∃ e, io.resolveA = .error e)) := by
  have hsettle : settleWhois rt io.now io.whois = ⟨.success, some ⟨.invalid, false⟩, none⟩ := by
    simp [hw, settleWhois, truthy, hs, newDate, hp, JsDate.lt]
  have hline := hasWhoisLine_summary rt (settledChecks rt io)
  have hwl : whoisLine rt (settledChecks rt io).whois =
      "✓ WHOIS: Expire le " ++ rt.toLocaleDateString .invalid := by
    show whoisLine rt (settleWhois rt io.now io.whois) = _
    rw [hsettle]
    rfl
  rw [hwl] at hline
  refine ⟨_, lookupDomain_eq rt io, hsettle, hline, glyph_append _ _ _ (by decide), ?_⟩
  rw [← failed_or_returned, ← failed_or_returned]
  show verdict (settledChecks rt io) = true ↔ _
  simp [verdict, settledChecks, hsettle]

/-- C14 at a WHOIS answer `before Aug-2031` that the sample runtime cannot parse. -/
theorem unparsable_date_not_expired_witness :
    ∃ r, lookupDomain sampleRuntime unparsableExpiry = .ok r ∧
      r.checks.whois = ⟨.success, some ⟨.invalid, false⟩, none⟩ ∧
      HasWhoisLine r.reason "✓ WHOIS: Expire le Invalid Date" ∧
      r.isExpired = false := by
  obtain ⟨r, h, hc, hl, _, he⟩ :=
    unparsable_date_not_expired sampleRuntime unparsableExpiry "before Aug-2031" rfl
      (by decide) (by decide)
  refine ⟨r, h, hc, hl, ?_⟩
  cases hb : r.isExpired with
  | false => rfl
  | true =>
    rcases he.mp hb with ⟨e, he'⟩ | ⟨e, he'⟩
    · exact absurd he' (by simp [unparsableExpiry, healthyDomain])
    · exact absurd he' (by simp [unparsableExpiry, healthyDomain])

/-- C15: a `true` verdict is backed by a failing line, and not conversely.  For
every input, if `isExpired` is `true` then the NS, the A or the WHOIS entry of the
summary begins with the failure glyph; and with NS and A succeeding while the MX
lookup and the WHOIS query fail, the MX and WHOIS entries begin with the failure
glyph although `isExpired` is `false`. -/
theorem verdict_backed_by_failing_line :
    (∀ (rt : Runtime) (io : Lookups), ∃ r l₁ l₂ l₃ l₄, lookupDomain rt io = .ok r ∧
      analyse rt r.checks = .ok (r.isExpired, [l₁, l₂, l₃, l₄]) ∧
      r.reason = l₁ ++ "\n" ++ l₂ ++ "\n" ++ l₃ ++ "\n" ++ l₄ ∧
      (r.isExpired = true →
        glyph l₁ = some '✗' ∨ glyph l₂ = some '✗' ∨ glyph l₄ = some '✗')) ∧
    ∃ r l₁ l₂ l₃ l₄, lookupDomain sampleRuntime mxAndWhoisFailure = .ok r ∧
      analyse sampleRuntime r.checks = .ok (r.isExpired, [l₁, l₂, l₃, l₄]) ∧
      r.reason = l₁ ++ "\n" ++ l₂ ++ "\n" ++ l₃ ++ "\n" ++ l₄ ∧
      glyph l₃ = some '✗' ∧ glyph l₄ = some '✗' ∧ r.isExpired = false := by
  constructor
  · intro rt io
    obtain ⟨_, _, ha⟩ := report_from_checks rt io _ (lookupDomain_eq rt io)
    exact ⟨_, _, _, _, _, lookupDomain_eq rt io, ha, join_four _ _ _ _,
      fun hv => verdict_backed rt (settledChecks rt io) hv⟩
  · obtain ⟨_, _, ha⟩ := report_from_checks sampleRuntime mxAndWhoisFailure _
      (lookupDomain_eq sampleRuntime mxAndWhoisFailure)
    exact ⟨_, _, _, _, _, lookupDomain_eq _ _, ha, join_four _ _ _ _,
      by decide, by decide, by decide⟩

/-- C16: a WHOIS answer whose `expirationDate` is the empty string gives the very
report of an answer without the field: `checks.whois` is the warning entry, neither
`success` nor `error`, and `isExpired` is `true` exactly when the NS or the A lookup
failed. -/
theorem empty_expiration_is_missing (rt : Runtime) (io : Lookups)
    (hw : io.whois = .ok ⟨some ""⟩) :
    ∃ r, lookupDomain rt io = .ok r ∧
      lookupDomain rt { io with whois := .ok ⟨none⟩ } = .ok r ∧
      r.checks.whois = ⟨.warning, none, some "Pas de date d'expiration trouvée"⟩ ∧
      r.checks.whois.status ≠ .success ∧ r.checks.whois.status ≠ .error ∧
      (r.isExpired = true ↔
        ((∃ e, io.resolveNs = .error e) ∨ ∃ e, io.resolveA = .error e)) := by
  have hsettle : settleWhois rt io.now io.whois =
      ⟨.warning, none, some "Pas de date d'expiration trouvée"⟩ := by
    simp [hw, settleWhois, truthy]
  have hnone : settleWhois rt io.now (.ok ⟨none⟩) =
      ⟨.warning, none, some "Pas de date d'expiration trouvée"⟩ := by
    simp [settleWhois, truthy]
  have hsame : settledChecks rt { io with whois := .ok ⟨none⟩ } = settledChecks rt io := by
    show Checks.mk _ _ _ (settleWhois rt io.now (.ok ⟨none⟩)) =
      Checks.mk _ _ _ (settleWhois rt io.now io.whois)
    rw [hnone, hsettle]
  refine ⟨_, lookupDomain_eq rt io, ?_, hsettle, ?_, ?_, ?_⟩
  · rw [lookupDomain_eq, hsame]
  · show (settleWhois rt io.now io.whois).status ≠ _
    rw [hsettle]; simp
  · show (settleWhois rt io.now io.whois).status ≠ _
    rw [hsettle]; simp
  · rw [← failed_or_returned, ← failed_or_returned]
    show verdict (settledChecks rt io) = true ↔ _
    simp [verdict, settledChecks, hsettle]

/-- C16 at the healthy domain whose WHOIS answer has an empty `expirationDate`:
the report is the one of the scenario `no-expiry-field.com`. -/
theorem empty_expiration_is_missing_witness :
    ∃ r, lookupDomain sampleRuntime emptyExpiryField = .ok r ∧
      lookupDomain sampleRuntime noExpiryField = .ok r ∧
      r.checks.whois = ⟨.warning, none, some "Pas de date d'expiration trouvée"⟩ := by
  obtain ⟨r, h, h', hc, _⟩ := empty_expiration_is_missing sampleRuntime emptyExpiryField rfl
  exact ⟨r, h, h', hc⟩

end DomainChecker
